import Mathlib

/-!
Shallow embedding of the idendrogram Streamlit frontend renderer
(`frontend/src/index.tsx`): the orientation-aware rendering pipeline that
maps an abstract dendrogram description (links, nodes, axis labels, domain
intervals) onto SVG screen space under four orientations and three value
scale kinds, with a body-level DOM model for container/tooltip lifecycle
and host calls.

Numbers are modelled as ℚ (JS numbers used for coordinates, domains,
dimensions); scale application, which for `log`/`symlog` kinds involves a
transcendental transform, produces ℝ. DOM side effects are modelled by
explicit state passing over a `Body` value; a render that throws (empty
`axis_labels`) is modelled by an error field together with the partial DOM
produced before the throw.
-/

namespace Idendro

/-- `enum Orientation` (index.tsx lines 62-67). -/
inductive Orientation where
  | top
  | bottom
  | right
  | left
deriving DecidableEq, Repr

/-- `interface AxisLabel` (lines 5-9). -/
structure AxisLabel where
  x : ℚ
  label : String
  labelAngle : ℚ
deriving DecidableEq, Repr

/-- `interface Coord` (lines 11-14). -/
structure Coord where
  x : ℚ
  y : ℚ
deriving DecidableEq, Repr

/-- `interface ClusterLink` (lines 16-27).  `data` is the derived coordinate
sequence assigned during `onRender`. -/
structure ClusterLink where
  x : List ℚ
  y : List ℚ
  fillcolor : String
  id : ℤ
  children_id : List ℤ
  cluster_id : ℤ
  strokewidth : ℚ
  strokedash : List ℚ
  strokeopacity : ℚ
  data : List Coord
deriving DecidableEq, Repr

/-- `interface ClusterNode` (lines 29-43).  The `hovertext` payload is either
a preformatted string or a key→value mapping rendered line by line. -/
inductive HoverText where
  | str (s : String)
  | mapping (entries : List (String × String))
deriving DecidableEq, Repr

structure ClusterNode where
  x : ℚ
  y : ℚ
  type : String
  id : ℤ
  cluster_id : Option ℤ
  edgecolor : String
  label : String
  hovertext : HoverText
  fillcolor : String
  radius : ℚ
  opacity : ℚ
  labelsize : ℚ
  labelcolor : String
deriving DecidableEq, Repr

/-- `interface Dendrogram` (lines 45-51). -/
structure Dendrogram where
  axis_labels : List AxisLabel
  links : List ClusterLink
  nodes : List ClusterNode
  x_domain : ℚ × ℚ
  y_domain : ℚ × ℚ
deriving DecidableEq, Repr

/-- `interface Margin` (lines 69-74). -/
structure Margin where
  top : ℚ
  right : ℚ
  bottom : ℚ
  left : ℚ
deriving DecidableEq, Repr

/-- `dimensions.margin[label_margin] = label_margin_size` (line 340): dynamic
field write on a `Margin` keyed by an `Orientation` value. -/
def Margin.set (m : Margin) (o : Orientation) (v : ℚ) : Margin :=
  match o with
  | .top => { m with top := v }
  | .bottom => { m with bottom := v }
  | .left => { m with left := v }
  | .right => { m with right := v }

/-- `interface Dimensions` (lines 53-60). -/
structure Dimensions where
  margin : Margin
  height : ℚ
  width : ℚ
  innerHeight : ℚ
  innerWidth : ℚ
  orientation : Orientation
deriving DecidableEq, Repr

/-- The d3 axis generator functions used for axis placement:
`d3.axisTop`, `d3.axisBottom`, `d3.axisLeft`, `d3.axisRight`. -/
inductive AxisFunc where
  | axisTop
  | axisBottom
  | axisLeft
  | axisRight
deriving DecidableEq, Repr

/-- Scale kinds selectable in `create_axis` (lines 181-187):
`d3.scaleLinear()`, `d3.scaleLog()`, `d3.scaleSymlog().constant(c)`. -/
inductive ScaleKind where
  | linear
  | log
  | symlog (c : ℚ)
deriving DecidableEq, Repr

/-- A configured d3 continuous scale: kind plus `.domain(...)` and
`.range(...)`. -/
structure ScaleDef where
  kind : ScaleKind
  domain : ℚ × ℚ
  range : ℚ × ℚ
deriving DecidableEq, Repr

/-- Orientation handling in `create_axis` (lines 111-141): scale ranges,
axis generator choices and axis group translations for each orientation. -/
structure AxisSetup where
  label_range : ℚ × ℚ
  value_range : ℚ × ℚ
  label_axis_func : AxisFunc
  value_axis_func : AxisFunc
  label_axis_transform : ℚ × ℚ
  value_axis_transform : ℚ × ℚ
deriving DecidableEq, Repr

/-- Lines 116-141 of `create_axis`: the orientation branch selecting ranges,
axis sides and axis group translations. -/
def axis_setup (dimensions : Dimensions) : AxisSetup :=
  if dimensions.orientation = Orientation.top ∨ dimensions.orientation = Orientation.bottom then
    if dimensions.orientation = Orientation.top then
      { label_range := (0, dimensions.innerWidth)
        value_range := (dimensions.innerHeight, 0)
        label_axis_func := .axisBottom
        value_axis_func := .axisLeft
        label_axis_transform := (0, dimensions.innerHeight)
        value_axis_transform := (0, 0) }
    else
      { label_range := (0, dimensions.innerWidth)
        value_range := (0, dimensions.innerHeight)
        label_axis_func := .axisTop
        value_axis_func := .axisLeft
        label_axis_transform := (0, 0)
        value_axis_transform := (0, 0) }
  else
    if dimensions.orientation = Orientation.left then
      { label_range := (dimensions.innerHeight, 0)
        value_range := (dimensions.innerWidth, 0)
        label_axis_func := .axisRight
        value_axis_func := .axisBottom
        label_axis_transform := (dimensions.innerWidth, 0)
        value_axis_transform := (0, dimensions.innerHeight) }
    else
      { label_range := (dimensions.innerHeight, 0)
        value_range := (0, dimensions.innerWidth)
        label_axis_func := .axisLeft
        value_axis_func := .axisBottom
        label_axis_transform := (0, 0)
        value_axis_transform := (0, dimensions.innerHeight) }

/-- The domain→unit-interval normalizer of a d3 continuous scale:
`(x - a) / (b - a)`, degenerating to the constant `1/2` when `b - a = 0`. -/
noncomputable def d3normalize (a b x : ℝ) : ℝ :=
  if b - a = 0 then 1 / 2 else (x - a) / (b - a)

/-- d3's numeric interpolator: `r0 * (1 - t) + r1 * t`. -/
def d3interpolate (r0 r1 t : ℝ) : ℝ :=
  r0 * (1 - t) + r1 * t

/-- The forward transform of each d3 scale kind.  `linear` is the identity;
`log` is the natural logarithm (reflected when the domain starts below
zero); `symlog` with constant `c` is `sign(x) * log(1 + |x / c|)`, defined
on all of ℝ. -/
noncomputable def ScaleKind.transform : ScaleKind → ℚ × ℚ → ℝ → ℝ
  | .linear, _ => fun x => x
  | .log, d => if d.1 < 0 then fun x => -Real.log (-x) else fun x => Real.log x
  | .symlog c, _ => fun x => Real.sign x * Real.log (1 + |x / (c : ℝ)|)

/-- Applying a configured d3 continuous scale to a domain value: transform,
normalize against the transformed domain endpoints, interpolate into the
range. -/
noncomputable def ScaleDef.apply (s : ScaleDef) (x : ℚ) : ℝ :=
  let t := s.kind.transform s.domain
  d3interpolate (s.range.1 : ℝ) (s.range.2 : ℝ)
    (d3normalize (t (s.domain.1 : ℝ)) (t (s.domain.2 : ℝ)) (t (x : ℝ)))

/-- The label axis group appended in `create_axis` (lines 152-160): one tick
per `axis_labels` entry, positioned through the label scale and formatted by
index. -/
structure LabelAxisElem where
  ticks : List (ℝ × String)
  func : AxisFunc
  transform : ℚ × ℚ

/-- The rotation attributes applied to the label axis text (lines 162-176). -/
structure LabelRotation where
  angle : ℚ
  anchor : String
  y_attr : ℚ
  x_attr : ℚ

/-- The value axis group appended in `create_axis` (lines 193-198). -/
structure ValueAxisElem where
  scale : ScaleDef
  func : AxisFunc
  transform : ℚ × ℚ

/-- One `path` element produced by `draw_links` (lines 204-223). -/
structure LinkPath where
  stroke : String
  strokewidth : ℚ
  strokeopacity : ℚ
  strokedash : List ℚ
  points : List (ℝ × ℝ)

/-- Host-side calls made through the Streamlit bridge. -/
inductive HostCall where
  | setComponentValue (value : ClusterNode)
  | setFrameHeight (height : Option ℚ)
  | setComponentReady

/-- The shared click handler of `draw_nodes` (lines 287-289): dispatch the
clicked node's full record to the host. -/
def click (d : ClusterNode) : HostCall :=
  HostCall.setComponentValue d

/-- The circle appended for each node (lines 291-299). -/
structure CircleElem where
  fill : String
  stroke : String
  r : ℚ
  opacity : ℚ
  onclick : HostCall

/-- The text label appended for each node (lines 302-310). -/
structure TextElem where
  content : String
  fill : String
  fontsize : ℚ
  opacity : ℚ
  onclick : HostCall

/-- One `g.node` group produced by `draw_nodes`: translated to the scaled
node position, holding a circle and a text label. -/
structure NodeElem where
  translate : ℝ × ℝ
  circle : CircleElem
  text : TextElem

/-- Output of `draw_nodes`: the node groups plus the number of tooltip divs
it appended to the document body (the single `div.idendro-tooltip` of
lines 234-248). -/
structure NodeLayer where
  groups : List NodeElem
  tooltips_appended : ℕ

/-- The `svg#idendro` element and its `g#idendro-container` content.  Layers
are `Option`s: `none` means the corresponding group was never appended. -/
structure SvgContent where
  width : ℚ
  height : ℚ
  translate : ℚ × ℚ
  label_axis : Option LabelAxisElem
  label_rotation : Option LabelRotation
  value_axis : Option ValueAxisElem
  link_paths : Option (List LinkPath)
  node_groups : Option (List NodeElem)

/-- The document body: the `svg#idendro` elements present (in document
order) and the number of `div.idendro-tooltip` elements. -/
structure Body where
  svgs : List SvgContent
  tooltips : ℕ

/-- `create_container` (lines 84-104): remove the first `#idendro` svg from
the body if present, then create a fresh svg of the given dimensions with a
plot group translated by the margins.  The fresh plot is returned as a
separate value and reattached to the body as its last svg by `onRender`,
mirroring the DOM aliasing of the returned selection. -/
def create_container (dimensions : Dimensions) (body : Body) : Body × SvgContent :=
  ({ body with svgs := body.svgs.tail },
   { width := dimensions.width
     height := dimensions.height
     translate := (dimensions.margin.left, dimensions.margin.top)
     label_axis := none
     label_rotation := none
     value_axis := none
     link_paths := none
     node_groups := none })

/-- `create_axis` (lines 106-201).  Appends the label axis group (ticks at
each `axis_labels[i].x` through the always-linear label scale, formatted by
index), reads the shared rotation angle from `axis_labels[0]` — returning
`none` for the scales when `axis_labels` is empty, the point where the
original throws a TypeError — then applies the rotation attributes, builds
the value scale selected by `scale_type`, and appends the value axis
group. -/
noncomputable def create_axis (plot : SvgContent) (dimensions : Dimensions)
    (dendrogram : Dendrogram) (scale_type : String) :
    SvgContent × Option (ScaleDef × ScaleDef) :=
  let label_limits := dendrogram.x_domain
  let value_limits := dendrogram.y_domain
  let setup := axis_setup dimensions
  let label_axis_pos := dendrogram.axis_labels.map (fun x => x.x)
  let label_axis_label := dendrogram.axis_labels.map (fun x => x.label)
  let labelScale : ScaleDef :=
    { kind := .linear, domain := label_limits, range := setup.label_range }
  let labelAxisElem : LabelAxisElem :=
    { ticks := label_axis_pos.mapIdx
        (fun i p => (labelScale.apply p, label_axis_label.getD i ""))
      func := setup.label_axis_func
      transform := setup.label_axis_transform }
  let plot1 : SvgContent := { plot with label_axis := some labelAxisElem }
  match dendrogram.axis_labels with
  | [] => (plot1, none)
  | first :: _ =>
    let labelAngle := first.labelAngle
    let anchor := if labelAngle < 0 then "end" else "start"
    let sign : ℚ := if labelAngle < 0 then -1 else 1
    let rotation : LabelRotation :=
      { angle := labelAngle
        anchor := anchor
        y_attr := |sign * 90 - labelAngle| / 7
        x_attr := labelAngle / 5 }
    let plot2 : SvgContent := { plot1 with label_rotation := some rotation }
    let valueScale : ScaleDef :=
      { kind :=
          if scale_type = "symlog" then ScaleKind.symlog 1
          else if scale_type = "log" then ScaleKind.log
          else ScaleKind.linear
        domain := value_limits
        range := setup.value_range }
    let valueAxisElem : ValueAxisElem :=
      { scale := valueScale
        func := setup.value_axis_func
        transform := setup.value_axis_transform }
    let plot3 : SvgContent := { plot2 with value_axis := some valueAxisElem }
    (plot3, some (labelScale, valueScale))

/-- `draw_links` (lines 204-223): one open path per link, styled from the
link's own fields, whose points are the link's derived `data` coordinates
mapped through the two scales (the original's `|| 0` guard only replaces a
JS `NaN`/`undefined` result, which does not arise over ℝ). -/
noncomputable def draw_links (links : List ClusterLink)
    (xScale yScale : ScaleDef) : List LinkPath :=
  links.map (fun d =>
    { stroke := d.fillcolor
      strokewidth := d.strokewidth
      strokeopacity := d.strokeopacity
      strokedash := d.strokedash
      points := d.data.map (fun c => (xScale.apply c.x, yScale.apply c.y)) })

/-- `draw_nodes` (lines 225-311): one group per node translated to the
scaled position, holding a circle and a text label that share the click
handler; a single tooltip div is appended to the document body. -/
noncomputable def draw_nodes (nodes : List ClusterNode)
    (xScale yScale : ScaleDef) : NodeLayer :=
  { groups := nodes.map (fun d =>
      { translate := (xScale.apply d.x, yScale.apply d.y)
        circle :=
          { fill := d.fillcolor, stroke := d.edgecolor, r := d.radius
            opacity := d.opacity, onclick := click d }
        text :=
          { content := d.label, fill := d.labelcolor, fontsize := d.labelsize
            opacity := d.opacity, onclick := click d } })
    tooltips_appended := 1 }

/-- The render event payload (lines 320-335 and §6 of the design). -/
structure RenderArgs where
  dendrogram : Dendrogram
  scale : String
  show_nodes : Bool
  height : ℚ
  width : ℚ
  orientation : Orientation

/-- `margin_map` (line 337): which margin side receives the enlarged label
margin for each orientation. -/
def margin_map : Orientation → Orientation
  | .top => .bottom
  | .bottom => .top
  | .left => .right
  | .right => .left

/-- Result of one render call: the error raised (if any), the document body
after the render's DOM effects, the dendrogram object after the render's
in-place mutations, and the calls made to the host. -/
structure RenderOut where
  error : Option String
  body : Body
  dendrogram : Dendrogram
  host_calls : List HostCall

/-- `onRender` (lines 318-383): compute margins and inner dimensions,
tear down and recreate the container, build the axes and scales, remap
link data and (for left/right) swap node coordinates in place, draw links,
optionally draw nodes, and request a frame-height recalculation.  When
`create_axis` fails on empty `axis_labels`, the partially built svg stays
attached and no further layer is drawn. -/
noncomputable def onRender (data : RenderArgs) (body : Body) : RenderOut :=
  let dendrogram := data.dendrogram
  let margin0 : Margin := { top := 50, right := 50, bottom := 50, left := 50 }
  let label_margin_size : ℚ := 200
  let label_margin := margin_map data.orientation
  let margin := margin0.set label_margin label_margin_size
  let dimensions : Dimensions :=
    { height := data.height
      width := data.width
      margin := margin
      innerHeight := data.height - margin.top - margin.bottom
      innerWidth := data.width - margin.left - margin.right
      orientation := data.orientation }
  let pair := create_container dimensions body
  let body1 := pair.1
  let axes := create_axis pair.2 dimensions dendrogram data.scale
  match axes.2 with
  | none =>
      { error := some "TypeError: cannot read labelAngle of undefined"
        body := { body1 with svgs := body1.svgs ++ [axes.1] }
        dendrogram := dendrogram
        host_calls := [] }
  | some scales =>
      let vertical :=
        data.orientation = Orientation.top ∨ data.orientation = Orientation.bottom
      let xScale := if vertical then scales.1 else scales.2
      let yScale := if vertical then scales.2 else scales.1
      let dendrogram2 :=
        if vertical then
          { dendrogram with links := dendrogram.links.map (fun link =>
              { link with data :=
                  link.x.mapIdx (fun i xv => { x := xv, y := link.y.getD i 0 }) }) }
        else
          { dendrogram with
            links := dendrogram.links.map (fun link =>
              { link with data :=
                  link.x.mapIdx (fun i xv => { y := xv, x := link.y.getD i 0 }) })
            nodes := dendrogram.nodes.map (fun node =>
              { node with x := node.y, y := node.x }) }
      let plot1 : SvgContent :=
        { axes.1 with link_paths := some (draw_links dendrogram2.links xScale yScale) }
      if data.show_nodes then
        let layer := draw_nodes dendrogram2.nodes xScale yScale
        let plot2 : SvgContent := { plot1 with node_groups := some layer.groups }
        { error := none
          body :=
            { svgs := body1.svgs ++ [plot2]
              tooltips := body1.tooltips + layer.tooltips_appended }
          dendrogram := dendrogram2
          host_calls := [HostCall.setFrameHeight none] }
      else
        { error := none
          body := { svgs := body1.svgs ++ [plot1], tooltips := body1.tooltips }
          dendrogram := dendrogram2
          host_calls := [HostCall.setFrameHeight none] }

/-! Shared concrete values used to instantiate the theorems. -/

/-- A blank svg, as produced by `create_container` before any layer is
appended. -/
def blankSvg : SvgContent :=
  { width := 0, height := 0, translate := (0, 0), label_axis := none
    label_rotation := none, value_axis := none, link_paths := none
    node_groups := none }

/-- An empty document body. -/
def emptyBody : Body :=
  { svgs := [], tooltips := 0 }

/-- A sample axis label. -/
def sampleLabel : AxisLabel :=
  { x := 0, label := "A", labelAngle := 0 }

/-- A sample node at the given coordinates. -/
def sampleNode (x y : ℚ) : ClusterNode :=
  { x := x, y := y, type := "leaf", id := 1, cluster_id := none
    edgecolor := "black", label := "n", hovertext := .str "h"
    fillcolor := "blue", radius := 4, opacity := 1, labelsize := 10
    labelcolor := "black" }

/-- A sample link through the given coordinate lists. -/
def sampleLink (xs ys : List ℚ) : ClusterLink :=
  { x := xs, y := ys, fillcolor := "blue", id := 1, children_id := []
    cluster_id := 1, strokewidth := 1, strokedash := [], strokeopacity := 1
    data := [] }

/-- A sample dendrogram with one axis label, one link and one node. -/
def sampleDendro : Dendrogram :=
  { axis_labels := [sampleLabel]
    links := [sampleLink [0, 1, 2] [0, 5, 0]]
    nodes := [sampleNode 1 5]
    x_domain := (0, 2)
    y_domain := (0, 5) }

/-- Sample dimensions (orientation `bottom`, inner box 100 × 100). -/
def sampleDims : Dimensions :=
  { margin := { top := 200, right := 50, bottom := 50, left := 50 }
    height := 350, width := 200, innerHeight := 100, innerWidth := 100
    orientation := .bottom }

/-- Sample render arguments over `sampleDendro`. -/
def sampleArgs : RenderArgs :=
  { dendrogram := sampleDendro, scale := "linear", show_nodes := true
    height := 350, width := 200, orientation := .bottom }

/-- The sample render arguments with orientation `left`. -/
def leftArgs : RenderArgs :=
  { sampleArgs with orientation := Orientation.left }

/-! Claim theorems. -/

/-- C1: for every orientation, `create_axis` selects the scale ranges per
the §4.2 table — label scale range `[0, innerWidth]` for `top`/`bottom`
and `[innerHeight, 0]` for `left`/`right`; value scale range
`[innerHeight, 0]` for `top`, `[0, innerHeight]` for `bottom`,
`[innerWidth, 0]` for `left`, `[0, innerWidth]` for `right`. -/
theorem create_axis_range_table (plot : SvgContent) (dims : Dimensions)
    (dendro : Dendrogram) (s : String) (l0 : AxisLabel) (ls : List AxisLabel)
    (h : dendro.axis_labels = l0 :: ls) (o : Orientation) :
    ∃ lsc vsc,
      (create_axis plot { dims with orientation := o } dendro s).2 = some (lsc, vsc) ∧
      lsc.range =
        (match o with
          | .top => ((0 : ℚ), dims.innerWidth)
          | .bottom => ((0 : ℚ), dims.innerWidth)
          | .left => (dims.innerHeight, (0 : ℚ))
          | .right => (dims.innerHeight, (0 : ℚ))) ∧
      vsc.range =
        (match o with
          | .top => (dims.innerHeight, (0 : ℚ))
          | .bottom => ((0 : ℚ), dims.innerHeight)
          | .left => (dims.innerWidth, (0 : ℚ))
          | .right => ((0 : ℚ), dims.innerWidth)) := by
  cases o <;> simp [create_axis, h, axis_setup] <;>
    exact ⟨_, _, ⟨rfl, rfl⟩, rfl, rfl⟩

/-- Witness for C1 at a concrete input (orientation `top`). -/
theorem create_axis_range_table_witness :
    ∃ lsc vsc,
      (create_axis blankSvg { sampleDims with orientation := Orientation.top }
        sampleDendro "linear").2 = some (lsc, vsc) ∧
      lsc.range = ((0 : ℚ), sampleDims.innerWidth) ∧
      vsc.range = (sampleDims.innerHeight, (0 : ℚ)) :=
  create_axis_range_table blankSvg sampleDims sampleDendro "linear"
    sampleLabel [] rfl Orientation.top

/-- C7: the label-axis scale produced by `create_axis` is linear regardless
of the `scale_type` parameter, and the value-axis scale kind is selected by
it — symlog with linear-threshold constant 1 for `"symlog"`, log for
`"log"`, linear otherwise. -/
theorem create_axis_scale_kinds (plot : SvgContent) (dims : Dimensions)
    (dendro : Dendrogram) (s : String) (l0 : AxisLabel) (ls : List AxisLabel)
    (h : dendro.axis_labels = l0 :: ls) :
    ∃ lsc vsc,
      (create_axis plot dims dendro s).2 = some (lsc, vsc) ∧
      lsc.kind = ScaleKind.linear ∧
      vsc.kind =
        (if s = "symlog" then ScaleKind.symlog 1
         else if s = "log" then ScaleKind.log
         else ScaleKind.linear) := by
  simp [create_axis, h]
  exact ⟨_, _, ⟨rfl, rfl⟩, rfl, rfl⟩

/-- Witness for C7 at a concrete input (`scale_type = "symlog"`). -/
theorem create_axis_scale_kinds_witness :
    ∃ lsc vsc,
      (create_axis blankSvg sampleDims sampleDendro "symlog").2 = some (lsc, vsc) ∧
      lsc.kind = ScaleKind.linear ∧
      vsc.kind =
        (if "symlog" = "symlog" then ScaleKind.symlog 1
         else if "symlog" = "log" then ScaleKind.log
         else ScaleKind.linear) :=
  create_axis_scale_kinds blankSvg sampleDims sampleDendro "symlog"
    sampleLabel [] rfl

/-- C6: the label-axis ticks correspond to `axis_labels` by index position —
the `i`-th tick is placed at the (always linear) label scale applied to
`axis_labels[i].x` and carries the text `axis_labels[i].label`, with no
sorting or value matching. -/
theorem label_ticks_by_index (plot : SvgContent) (dims : Dimensions)
    (dendro : Dendrogram) (s : String) (i : ℕ) :
    ∃ la, (create_axis plot dims dendro s).1.label_axis = some la ∧
      la.ticks.length = dendro.axis_labels.length ∧
      la.ticks[i]? = (dendro.axis_labels[i]?).map (fun al =>
        (ScaleDef.apply
            { kind := .linear, domain := dendro.x_domain
              range := (axis_setup dims).label_range }
            al.x,
         al.label)) := by
  have key : ∀ (l : List AxisLabel),
      ((l.map (fun x => x.x)).mapIdx (fun j p =>
        (ScaleDef.apply
            { kind := .linear, domain := dendro.x_domain
              range := (axis_setup dims).label_range } p,
         (l.map (fun x => x.label)).getD j "")))[i]? =
      (l[i]?).map (fun al =>
        (ScaleDef.apply
            { kind := .linear, domain := dendro.x_domain
              range := (axis_setup dims).label_range }
            al.x,
         al.label)) := by
    intro l
    cases hli : l[i]? with
    | none => simp [List.getElem?_mapIdx, hli]
    | some al => simp [List.getElem?_mapIdx, hli]
  cases hl : dendro.axis_labels with
  | nil =>
    simp only [create_axis, hl]
    exact ⟨_, rfl, by simp, by simp⟩
  | cons a as =>
    simp only [create_axis, hl]
    exact ⟨_, rfl, by simp [List.length_mapIdx], by simpa using key (a :: as)⟩

/-- C10: a render with `axis_labels = []` fails with an undefined-access
error — the shared rotation angle is read unconditionally from
`axis_labels[0]` — after the label axis group is appended but before the
value axis, links, or nodes are drawn, and no host call is made. -/
theorem empty_axis_labels_failure (args : RenderArgs) (body : Body)
    (h : args.dendrogram.axis_labels = []) :
    ∃ svg, (onRender args body).error.isSome = true ∧
      (onRender args body).body.svgs.getLast? = some svg ∧
      svg.label_axis.isSome = true ∧
      svg.value_axis = none ∧
      svg.link_paths = none ∧
      svg.node_groups = none ∧
      (onRender args body).host_calls = [] := by
  simp only [onRender, create_axis, create_container, h]
  refine ⟨_, ?_, List.getLast?_concat _, ?_, ?_, ?_, ?_, ?_⟩ <;> simp

/-- Witness for C10 at a concrete input (the sample dendrogram with its
axis labels emptied). -/
theorem empty_axis_labels_failure_witness :
    ∃ svg,
      (onRender { sampleArgs with dendrogram :=
        { sampleDendro with axis_labels := [] } } emptyBody).error.isSome = true ∧
      (onRender { sampleArgs with dendrogram :=
        { sampleDendro with axis_labels := [] } } emptyBody).body.svgs.getLast?
        = some svg ∧
      svg.label_axis.isSome = true ∧
      svg.value_axis = none ∧
      svg.link_paths = none ∧
      svg.node_groups = none ∧
      (onRender { sampleArgs with dendrogram :=
        { sampleDendro with axis_labels := [] } } emptyBody).host_calls = [] :=
  empty_axis_labels_failure _ emptyBody rfl

/-- C3 (amended): each render with `show_nodes` enabled creates exactly one
tooltip element, shared by all nodes of that render — but the tooltip is
appended to the document body, outside the `#idendro` svg, and the teardown
removes only that svg, so tooltip elements accumulate: every render adds
one to the body's tooltip count. -/
theorem tooltip_per_render (args : RenderArgs) (body : Body)
    (hs : args.show_nodes = true) (l0 : AxisLabel) (ls : List AxisLabel)
    (h : args.dendrogram.axis_labels = l0 :: ls) :
    (onRender args body).body.tooltips = body.tooltips + 1 := by
  simp only [onRender, create_axis, create_container, h, hs]
  simp [draw_nodes]

/-- Witness for the amended C3 at a concrete input. -/
theorem tooltip_per_render_witness :
    (onRender sampleArgs emptyBody).body.tooltips = emptyBody.tooltips + 1 :=
  tooltip_per_render sampleArgs emptyBody rfl sampleLabel [] rfl

/-- Counterexample to C3 as stated: after two successive renders with
`show_nodes` enabled, two tooltip elements exist in the body, not one —
the teardown of `#idendro` does not remove the previous render's
tooltip. -/
theorem tooltip_leak_counterexample :
    (onRender sampleArgs (onRender sampleArgs emptyBody).body).body.tooltips = 2 ∧
    (2 : ℕ) ≠ 1 := by
  constructor
  · simp only [onRender, create_axis, create_container, sampleArgs, sampleDendro,
      emptyBody]
    simp [draw_nodes]
  · decide

/-- C5: for left/right orientation one render applies the in-place node
x/y swap exactly once per node, so rendering the same (mutated) dendrogram
object twice restores each node's original coordinates instead of the
mirrored ones that a render of a fresh copy would store — double-render of
the mutated object is not equivalent to a fresh render. -/
theorem node_swap_double_render (args : RenderArgs) (body : Body)
    (ho : args.orientation = Orientation.left ∨ args.orientation = Orientation.right)
    (l0 : AxisLabel) (ls : List AxisLabel)
    (h : args.dendrogram.axis_labels = l0 :: ls)
    (n : ClusterNode) (hn : n ∈ args.dendrogram.nodes) (hxy : n.x ≠ n.y) :
    (onRender args body).dendrogram.nodes =
      args.dendrogram.nodes.map (fun node => { node with x := node.y, y := node.x }) ∧
    (onRender { args with dendrogram := (onRender args body).dendrogram }
        (onRender args body).body).dendrogram.nodes = args.dendrogram.nodes ∧
    (onRender args body).dendrogram.nodes ≠ args.dendrogram.nodes := by
  have hswap : ∀ m : ClusterNode,
      (fun node => ({ node with x := node.y, y := node.x } : ClusterNode))
        ((fun node => ({ node with x := node.y, y := node.x } : ClusterNode)) m) = m :=
    fun _ => rfl
  have h1 : (onRender args body).dendrogram.nodes =
      args.dendrogram.nodes.map (fun node => { node with x := node.y, y := node.x }) := by
    rcases ho with ho | ho <;> cases hsn : args.show_nodes <;>
      simp [onRender, create_axis, create_container, h, ho, hsn]
  have h2 : (onRender { args with dendrogram := (onRender args body).dendrogram }
      (onRender args body).body).dendrogram.nodes =
      (onRender args body).dendrogram.nodes.map
        (fun node => { node with x := node.y, y := node.x }) := by
    have haxis : (onRender args body).dendrogram.axis_labels = l0 :: ls := by
      rcases ho with ho | ho <;> cases hsn : args.show_nodes <;>
        simp [onRender, create_axis, create_container, h, ho, hsn]
    rcases ho with ho | ho <;> cases hsn : args.show_nodes <;>
      simp [onRender, create_axis, create_container, h, haxis, ho, hsn]
  refine ⟨h1, ?_, ?_⟩
  · rw [h2, h1, List.map_map]
    exact List.map_id'' hswap _
  · rw [h1]
    intro hc
    obtain ⟨idx, hget⟩ := List.get_of_mem hn
    have hsome : args.dendrogram.nodes[idx.1]? = some n := by
      rw [List.getElem?_eq_getElem idx.2, ← List.get_eq_getElem, hget]
    have hx : (args.dendrogram.nodes.map
        (fun node => ({ node with x := node.y, y := node.x } : ClusterNode)))[idx.1]?
        = args.dendrogram.nodes[idx.1]? := by rw [hc]
    rw [List.getElem?_map, hsome] at hx
    have hfn : ({ n with x := n.y, y := n.x } : ClusterNode) = n := by
      simpa using hx
    have hyx : n.y = n.x := by simpa using congrArg ClusterNode.x hfn
    exact hxy hyx.symm

/-- Witness for C5 at a concrete input (orientation `left`, a node with
distinct coordinates). -/
theorem node_swap_double_render_witness :
    (onRender leftArgs emptyBody).dendrogram.nodes =
      leftArgs.dendrogram.nodes.map
        (fun node => { node with x := node.y, y := node.x }) ∧
    (onRender { leftArgs with dendrogram := (onRender leftArgs emptyBody).dendrogram }
        (onRender leftArgs emptyBody).body).dendrogram.nodes =
      leftArgs.dendrogram.nodes ∧
    (onRender leftArgs emptyBody).dendrogram.nodes ≠ leftArgs.dendrogram.nodes :=
  node_swap_double_render leftArgs emptyBody (Or.inl rfl) sampleLabel [] rfl
    (sampleNode 1 5) (by decide) (by decide)

/-- C9: every successful render call — with or without nodes shown — ends
by requesting a host frame-height recalculation with no explicit height
argument; and when nodes are shown, a click on a rendered node's circle or
text label dispatches exactly that node's complete record (as currently
stored on the object) to the host as the component value. -/
theorem node_click_and_frame_height (args : RenderArgs) (body : Body)
    (l0 : AxisLabel) (ls : List AxisLabel)
    (h : args.dendrogram.axis_labels = l0 :: ls) (i : ℕ) :
    (onRender args body).host_calls.getLast? =
      some (HostCall.setFrameHeight none) ∧
    (args.show_nodes = true →
      ∃ svg groups,
        (onRender args body).body.svgs.getLast? = some svg ∧
        svg.node_groups = some groups ∧
        groups.length = (onRender args body).dendrogram.nodes.length ∧
        (groups[i]?).map (fun g => (g.circle.onclick, g.text.onclick)) =
          ((onRender args body).dendrogram.nodes[i]?).map (fun n =>
            (HostCall.setComponentValue n, HostCall.setComponentValue n))) := by
  have key : ∀ (nl : List ClusterNode) (xs ys : ScaleDef),
      (((draw_nodes nl xs ys).groups)[i]?).map
          (fun g => (g.circle.onclick, g.text.onclick)) =
        (nl[i]?).map (fun n =>
          (HostCall.setComponentValue n, HostCall.setComponentValue n)) := by
    intro nl xs ys
    cases hni : nl[i]? <;> simp [draw_nodes, click, hni]
  have klen : ∀ (nl : List ClusterNode) (xs ys : ScaleDef),
      (draw_nodes nl xs ys).groups.length = nl.length := by
    intro nl xs ys; simp [draw_nodes]
  cases ho : args.orientation <;> cases hsn : args.show_nodes <;>
    simp only [onRender, create_axis, create_container, h, ho, hsn,
      reduceCtorEq, or_self, or_false, false_or, if_true, if_false,
      ite_true, ite_false, Bool.false_eq_true] <;>
    refine ⟨by simp, ?_⟩ <;>
    first
      | exact fun hc => hc.elim
      | (intro _
         refine ⟨_, _, List.getLast?_concat _, rfl, ?_, ?_⟩ <;>
           first
             | exact klen _ _ _
             | exact key _ _ _)

/-- Witness for C9 at a concrete input (nodes shown, so the click conjunct
is exercised as well as the frame-height call). -/
theorem node_click_and_frame_height_witness :
    (onRender sampleArgs emptyBody).host_calls.getLast? =
      some (HostCall.setFrameHeight none) ∧
    (∃ svg groups,
      (onRender sampleArgs emptyBody).body.svgs.getLast? = some svg ∧
      svg.node_groups = some groups ∧
      groups.length = (onRender sampleArgs emptyBody).dendrogram.nodes.length ∧
      (groups[0]?).map (fun g => (g.circle.onclick, g.text.onclick)) =
        ((onRender sampleArgs emptyBody).dendrogram.nodes[0]?).map (fun n =>
          (HostCall.setComponentValue n, HostCall.setComponentValue n))) :=
  ⟨(node_click_and_frame_height sampleArgs emptyBody sampleLabel [] rfl 0).1,
   (node_click_and_frame_height sampleArgs emptyBody sampleLabel [] rfl 0).2 rfl⟩

/-- Indexing the derived link `data` built by `mapIdx` over the `x` array
with positional lookups into the `y` array: under the documented invariant
`x.length = y.length`, entry `i` pairs `x[i]` with `y[i]`. -/
theorem mapIdx_pair_getElem (xs ysl : List ℚ) (hlen : xs.length = ysl.length)
    (i : ℕ) (mk : ℚ → ℚ → Coord) :
    (xs.mapIdx (fun k xv => mk xv (ysl.getD k 0)))[i]? =
      (xs[i]?).bind (fun xv => (ysl[i]?).map (fun yv => mk xv yv)) := by
  cases hxi : xs[i]? with
  | none => simp [List.getElem?_mapIdx, hxi]
  | some xv =>
    obtain ⟨hi, _⟩ := List.getElem?_eq_some.mp hxi
    have hiy : i < ysl.length := hlen ▸ hi
    simp [List.getElem?_mapIdx, hxi, List.getElem?_eq_getElem hiy]

/-- The `(xScale, yScale)` pair that `onRender` passes to the drawing
routines (lines 326-360): the label scale and the value scale built by
`create_axis` over the computed dimensions, in that order for top/bottom
orientations and exchanged for left/right. -/
def render_scales (args : RenderArgs) : ScaleDef × ScaleDef :=
  let margin := (Margin.mk 50 50 50 50).set (margin_map args.orientation) 200
  let dimensions : Dimensions :=
    { height := args.height
      width := args.width
      margin := margin
      innerHeight := args.height - margin.top - margin.bottom
      innerWidth := args.width - margin.left - margin.right
      orientation := args.orientation }
  let setup := axis_setup dimensions
  let labelScale : ScaleDef :=
    { kind := .linear, domain := args.dendrogram.x_domain
      range := setup.label_range }
  let valueScale : ScaleDef :=
    { kind :=
        if args.scale = "symlog" then ScaleKind.symlog 1
        else if args.scale = "log" then ScaleKind.log
        else ScaleKind.linear
      domain := args.dendrogram.y_domain
      range := setup.value_range }
  if args.orientation = Orientation.top ∨ args.orientation = Orientation.bottom
    then (labelScale, valueScale) else (valueScale, labelScale)

/-- C4: under top/bottom orientations each link's derived coordinate
sequence pairs `x[i]` with `y[i]` (screen x from `x`, screen y from `y`)
and node fields are unchanged; under left/right the pairing is swapped
(screen x from `y`, screen y from `x`) and each node's `x`/`y` fields are
exchanged in place; in all cases the drawn path of a link has exactly as
many points as the link's `x` array, in the same order (each path point is
the image of the corresponding `data` entry under the two scales). -/
theorem link_data_and_paths (args : RenderArgs) (body : Body)
    (l0 : AxisLabel) (ls : List AxisLabel)
    (h : args.dendrogram.axis_labels = l0 :: ls)
    (j : ℕ) (L : ClusterLink)
    (hL : args.dendrogram.links[j]? = some L)
    (hlen : L.x.length = L.y.length) (i : ℕ) :
    ((((onRender args body).body.svgs.getLast?).bind
        (fun svg => svg.link_paths)).map (fun lps => lps.length)) =
      some args.dendrogram.links.length ∧
    ((onRender args body).dendrogram.links[j]?).map (fun L2 => (L2.x, L2.y)) =
      some (L.x, L.y) ∧
    ((onRender args body).dendrogram.links[j]?).map (fun L2 => L2.data.length) =
      some L.x.length ∧
    (((((onRender args body).body.svgs.getLast?).bind
        (fun svg => svg.link_paths)).bind (fun lps => lps[j]?)).map
          (fun lp => lp.points.length)) = some L.x.length ∧
    ((onRender args body).dendrogram.links[j]?).map (fun L2 => L2.data[i]?) =
      some ((L.x[i]?).bind (fun xv => (L.y[i]?).map (fun yv =>
        (match args.orientation with
          | .top => ({ x := xv, y := yv } : Coord)
          | .bottom => ({ x := xv, y := yv } : Coord)
          | .left => ({ x := yv, y := xv } : Coord)
          | .right => ({ x := yv, y := xv } : Coord))))) ∧
    (onRender args body).dendrogram.nodes =
      (match args.orientation with
        | .top => args.dendrogram.nodes
        | .bottom => args.dendrogram.nodes
        | .left => args.dendrogram.nodes.map
            (fun node => { node with x := node.y, y := node.x })
        | .right => args.dendrogram.nodes.map
            (fun node => { node with x := node.y, y := node.x })) ∧
    (((((onRender args body).body.svgs.getLast?).bind
        (fun svg => svg.link_paths)).bind (fun lps => lps[j]?)).map
          (fun lp => lp.points)) =
      ((onRender args body).dendrogram.links[j]?).map (fun L2 =>
        L2.data.map (fun c =>
          (ScaleDef.apply (render_scales args).1 c.x,
           ScaleDef.apply (render_scales args).2 c.y))) := by
  cases ho : args.orientation <;> cases hsn : args.show_nodes <;>
    simp only [onRender, create_axis, create_container, h, ho, hsn,
      reduceCtorEq, or_self, or_false, false_or, if_true, if_false,
      ite_true, ite_false, Bool.false_eq_true] <;>
    refine ⟨by simp [List.getLast?_concat, draw_links],
      by simp [hL], by simp [hL],
      by simp [List.getLast?_concat, draw_links, hL],
      ?_, by trivial,
      by simp [List.getLast?_concat, draw_links, hL, render_scales, ho]⟩ <;>
    · simp only [List.getElem?_map, hL, Option.map_some']
      first
        | rw [mapIdx_pair_getElem L.x L.y hlen i
            (fun a b => ({ x := a, y := b } : Coord))]
        | rw [mapIdx_pair_getElem L.x L.y hlen i
            (fun a b => ({ x := b, y := a } : Coord))]

/-- Witness for C4 at a concrete input (the sample dendrogram, link 0,
coordinate index 1). -/
theorem link_data_and_paths_witness :
    ((((onRender sampleArgs emptyBody).body.svgs.getLast?).bind
        (fun svg => svg.link_paths)).map (fun lps => lps.length)) =
      some sampleArgs.dendrogram.links.length ∧
    ((onRender sampleArgs emptyBody).dendrogram.links[0]?).map
        (fun L2 => (L2.x, L2.y)) =
      some ((sampleLink [0, 1, 2] [0, 5, 0]).x, (sampleLink [0, 1, 2] [0, 5, 0]).y) ∧
    ((onRender sampleArgs emptyBody).dendrogram.links[0]?).map
        (fun L2 => L2.data.length) =
      some (sampleLink [0, 1, 2] [0, 5, 0]).x.length ∧
    (((((onRender sampleArgs emptyBody).body.svgs.getLast?).bind
        (fun svg => svg.link_paths)).bind (fun lps => lps[0]?)).map
          (fun lp => lp.points.length)) =
      some (sampleLink [0, 1, 2] [0, 5, 0]).x.length ∧
    ((onRender sampleArgs emptyBody).dendrogram.links[0]?).map
        (fun L2 => L2.data[1]?) =
      some (((sampleLink [0, 1, 2] [0, 5, 0]).x[1]?).bind (fun xv =>
        (((sampleLink [0, 1, 2] [0, 5, 0]).y[1]?).map (fun yv =>
          ({ x := xv, y := yv } : Coord))))) ∧
    (onRender sampleArgs emptyBody).dendrogram.nodes =
      sampleArgs.dendrogram.nodes ∧
    (((((onRender sampleArgs emptyBody).body.svgs.getLast?).bind
        (fun svg => svg.link_paths)).bind (fun lps => lps[0]?)).map
          (fun lp => lp.points)) =
      ((onRender sampleArgs emptyBody).dendrogram.links[0]?).map (fun L2 =>
        L2.data.map (fun c =>
          (ScaleDef.apply (render_scales sampleArgs).1 c.x,
           ScaleDef.apply (render_scales sampleArgs).2 c.y))) :=
  link_data_and_paths sampleArgs emptyBody sampleLabel [] rfl 0
    (sampleLink [0, 1, 2] [0, 5, 0]) rfl rfl 1

/-- The §8 end-to-end scenario input: two nodes at domain coordinates
`(0,0)` and `(1,10)`, `x_domain [0,1]`, `y_domain [0,10]`, one axis label
(required for a render to complete at all). -/
def scenarioDendro : Dendrogram :=
  { axis_labels := [sampleLabel]
    links := []
    nodes := [sampleNode 0 0, sampleNode 1 10]
    x_domain := (0, 1)
    y_domain := (0, 10) }

/-- The §8 end-to-end scenario arguments: orientation `bottom`, scale
`linear`, height 350 and width 200 so that the inner box is 100 × 100. -/
def scenarioArgs : RenderArgs :=
  { dendrogram := scenarioDendro, scale := "linear", show_nodes := true
    height := 350, width := 200, orientation := .bottom }

/-- Counterexample to C2 as stated: at the §8 scenario input the rendered
node translations are `(0,0)` and `(100,100)` — with orientation `bottom`
the value range is `[0, innerHeight]`, so domain y = 0 maps to pixel 0 —
not the claimed `(0,100)` and `(100,0)` (which correspond to orientation
`top`). -/
theorem scenario_bottom_counterexample :
    ∃ svg groups,
      (onRender scenarioArgs emptyBody).body.svgs.getLast? = some svg ∧
      svg.node_groups = some groups ∧
      groups.map (fun g => g.translate) =
        [((0 : ℝ), (0 : ℝ)), ((100 : ℝ), (100 : ℝ))] ∧
      groups.map (fun g => g.translate) ≠
        [((0 : ℝ), (100 : ℝ)), ((100 : ℝ), (0 : ℝ))] := by
  refine ⟨_, _, List.getLast?_concat _, rfl, ?_, ?_⟩ <;>
    simp [onRender, create_axis, create_container, draw_nodes, draw_links,
      scenarioArgs, scenarioDendro, sampleNode, sampleLabel, margin_map,
      Margin.set, axis_setup, ScaleDef.apply, ScaleKind.transform,
      d3normalize, d3interpolate, click] <;>
    norm_num

/-- C2 (amended): at the §8 scenario input — orientation `bottom`, scale
`linear`, `x_domain [0,1]`, `y_domain [0,10]`, inner box 100 × 100 — the
first node renders at pixel `(0,0)` and the second at `(100,100)` (the
claimed `(0,100)`/`(100,0)` holds for orientation `top`, whose value range
is inverted). -/
theorem scenario_bottom_positions :
    ∃ svg groups,
      (onRender scenarioArgs emptyBody).body.svgs.getLast? = some svg ∧
      svg.node_groups = some groups ∧
      groups.map (fun g => g.translate) =
        [((0 : ℝ), (0 : ℝ)), ((100 : ℝ), (100 : ℝ))] := by
  refine ⟨_, _, List.getLast?_concat _, rfl, ?_⟩
  simp [onRender, create_axis, create_container, draw_nodes, draw_links,
    scenarioArgs, scenarioDendro, sampleNode, sampleLabel, margin_map,
    Margin.set, axis_setup, ScaleDef.apply, ScaleKind.transform,
    d3normalize, d3interpolate, click]
  norm_num

/-- The symlog forward transform is nonpositive at nonpositive inputs. -/
theorem sign_mul_log_nonpos (x : ℝ) (hx : x ≤ 0) :
    Real.sign x * Real.log (1 + |x|) ≤ 0 := by
  rcases lt_or_eq_of_le hx with hlt | heq
  · rw [Real.sign_of_neg hlt]
    have hlog : 0 ≤ Real.log (1 + |x|) :=
      Real.log_nonneg (le_add_of_nonneg_right (abs_nonneg x))
    linarith
  · rw [heq, Real.sign_zero, zero_mul]

/-- The symlog forward transform is nonnegative at nonnegative inputs. -/
theorem sign_mul_log_nonneg (x : ℝ) (hx : 0 ≤ x) :
    0 ≤ Real.sign x * Real.log (1 + |x|) := by
  rcases lt_or_eq_of_le hx with hlt | heq
  · rw [Real.sign_of_pos hlt]
    have hlog : 0 ≤ Real.log (1 + |x|) :=
      Real.log_nonneg (le_add_of_nonneg_right (abs_nonneg x))
    linarith
  · rw [← heq, Real.sign_zero, zero_mul]

/-- The d3 normalizer maps `0` into the unit interval whenever the
transformed domain endpoints straddle `0` (degenerating to `1/2` when they
coincide). -/
theorem d3normalize_zero_mem (a b : ℝ) (ha : a ≤ 0) (hb : 0 ≤ b) :
    d3normalize a b 0 ∈ Set.Icc (0 : ℝ) 1 := by
  by_cases hab : b - a = 0
  · simp [d3normalize, hab]
    norm_num
  · have hba : 0 < b - a := lt_of_le_of_ne (by linarith) (Ne.symm hab)
    simp only [d3normalize, hab, if_false]
    constructor
    · apply div_nonneg <;> linarith
    · rw [div_le_one hba]; linarith

/-- The d3 numeric interpolator maps the unit interval into the closed
interval spanned by the range endpoints. -/
theorem d3interpolate_mem (r0 r1 t : ℝ) (h0 : 0 ≤ t) (h1 : t ≤ 1) :
    d3interpolate r0 r1 t ∈ Set.Icc (min r0 r1) (max r0 r1) := by
  constructor
  · have hlo : min r0 r1 * (1 - t) + min r0 r1 * t ≤ r0 * (1 - t) + r1 * t :=
      add_le_add (mul_le_mul_of_nonneg_right (min_le_left _ _) (by linarith))
        (mul_le_mul_of_nonneg_right (min_le_right _ _) h0)
    calc min r0 r1 = min r0 r1 * (1 - t) + min r0 r1 * t := by ring
      _ ≤ d3interpolate r0 r1 t := hlo
  · have hhi : r0 * (1 - t) + r1 * t ≤ max r0 r1 * (1 - t) + max r0 r1 * t :=
      add_le_add (mul_le_mul_of_nonneg_right (le_max_left _ _) (by linarith))
        (mul_le_mul_of_nonneg_right (le_max_right _ _) h0)
    calc d3interpolate r0 r1 t ≤ max r0 r1 * (1 - t) + max r0 r1 * t := hhi
      _ = max r0 r1 := by ring

/-- A symlog scale with constant 1 over a domain containing zero evaluates
at zero to a pixel value inside the interval spanned by its range
endpoints. -/
theorem symlog_apply_zero_mem (d0 d1 : ℚ) (r : ℚ × ℚ)
    (h0 : d0 ≤ 0) (h1 : (0 : ℚ) ≤ d1) :
    ScaleDef.apply ⟨.symlog 1, (d0, d1), r⟩ 0 ∈
      Set.Icc (min ((r.1 : ℝ)) ((r.2 : ℝ))) (max ((r.1 : ℝ)) ((r.2 : ℝ))) := by
  have ha : Real.sign ((d0 : ℚ) : ℝ) * Real.log (1 + |((d0 : ℚ) : ℝ)|) ≤ 0 :=
    sign_mul_log_nonpos _ (by exact_mod_cast h0)
  have hb : 0 ≤ Real.sign ((d1 : ℚ) : ℝ) * Real.log (1 + |((d1 : ℚ) : ℝ)|) :=
    sign_mul_log_nonneg _ (by exact_mod_cast h1)
  have hmem := d3normalize_zero_mem _ _ ha hb
  simp only [ScaleDef.apply, ScaleKind.transform, Rat.cast_one, Rat.cast_zero,
    div_one, Real.sign_zero, zero_mul, abs_zero]
  exact d3interpolate_mem _ _ _ hmem.1 hmem.2

/-- C8: building the value scale with `scale_type = "symlog"` over a
`y_domain` containing zero and evaluating it at zero is well defined and
yields a finite pixel value — a real number lying between the range
endpoints (the symlog mapping with constant 1 is defined at and around
zero). -/
theorem symlog_scale_zero_finite (plot : SvgContent) (dims : Dimensions)
    (dendro : Dendrogram) (l0 : AxisLabel) (ls : List AxisLabel)
    (h : dendro.axis_labels = l0 :: ls)
    (d0 d1 : ℚ) (hy : dendro.y_domain = (d0, d1))
    (h0 : d0 ≤ 0) (h1 : (0 : ℚ) ≤ d1) :
    ∃ lsc vsc,
      (create_axis plot dims dendro "symlog").2 = some (lsc, vsc) ∧
      vsc.kind = ScaleKind.symlog 1 ∧
      ScaleDef.apply vsc 0 ∈
        Set.Icc (min ((vsc.range.1 : ℝ)) ((vsc.range.2 : ℝ)))
                (max ((vsc.range.1 : ℝ)) ((vsc.range.2 : ℝ))) := by
  simp only [create_axis, h]
  refine ⟨_, _, rfl, ?_, ?_⟩
  · simp
  · simp only [hy]
    exact symlog_apply_zero_mem d0 d1 _ h0 h1

/-- Witness for C8 at a concrete input (domain `[-1, 1]`). -/
theorem symlog_scale_zero_finite_witness :
    ∃ lsc vsc,
      (create_axis blankSvg sampleDims
          { sampleDendro with y_domain := (-1, 1) } "symlog").2 = some (lsc, vsc) ∧
      vsc.kind = ScaleKind.symlog 1 ∧
      ScaleDef.apply vsc 0 ∈
        Set.Icc (min ((vsc.range.1 : ℝ)) ((vsc.range.2 : ℝ)))
                (max ((vsc.range.1 : ℝ)) ((vsc.range.2 : ℝ))) :=
  symlog_scale_zero_finite blankSvg sampleDims
    { sampleDendro with y_domain := (-1, 1) } sampleLabel [] rfl
    (-1) 1 rfl (by decide) (by decide)

end Idendro
